import Mathlib

/-!
Verification of the sentiment scoring and classification core of the
`Analise-de-Sentimento-em-Dados-de-Redes-Sociais` repository
(`src/sentiment_analyzer.py`, class `SentimentAnalyzer`).

Modelling conventions:
* Python floats are modelled as exact rationals `ℚ`; every arithmetic
  operation of the source (`+ 0.3`, `min`, `max`, comparisons against the
  `0.1` threshold, `100 * count / total`) is exact on the values involved.
* A possibly-missing text (`NaN` in a pandas column, caught by
  `pd.isna(text)`) is `Option String`, with `none` for missing.
* `TextBlob` and `nltk`'s `SentimentIntensityAnalyzer` are external
  libraries, not part of the repository: they enter the model as opaque
  function parameters (`blob : String → ℚ × ℚ` returning
  (polarity, subjectivity); `va : Option (String → VaderScores)`, `none`
  when the VADER lexicon failed to load at startup).
* All definitions are computable and return total results: the Python
  branches that avoid raising (`if not text or pd.isna(text)`) are the
  corresponding `match`/`if` branches here.
-/

/-- Default classification threshold: the Python default argument
`threshold: float = 0.1` of `classify_sentiment`. -/
def defaultThreshold : ℚ := 1/10

/-- `SentimentAnalyzer.classify_sentiment`:
`if polarity > threshold: "positivo" elif polarity < -threshold: "negativo"
else: "neutro"`. -/
def classifySentiment (polarity : ℚ) (threshold : ℚ) : String :=
  if polarity > threshold then "positivo"
  else if polarity < -threshold then "negativo"
  else "neutro"

/-- `self.positive_words` from `SentimentAnalyzer.__init__` (a Python set;
membership is all that is ever used, so a list with `contains` models it). -/
def positiveWords : List String :=
  ["bom", "boa", "ótimo", "ótima", "excelente", "fantástico", "fantástica",
   "incrível", "maravilhoso", "maravilhosa", "perfeito", "perfeita",
   "adoro", "amo", "gosto", "recomendo", "satisfeito", "satisfeita",
   "feliz", "alegre", "contente", "impressionado", "impressionada",
   "surpreendente", "genial", "brilhante", "espetacular", "magnífico",
   "delicioso", "deliciosa", "saboroso", "saborosa", "gostoso", "gostosa"]

/-- `self.negative_words` from `SentimentAnalyzer.__init__`. -/
def negativeWords : List String :=
  ["ruim", "péssimo", "péssima", "horrível", "terrível", "odioso",
   "detesto", "odeio", "desgosto", "desapontado", "desapontada",
   "frustrado", "frustrada", "irritado", "irritada", "bravo", "brava",
   "furioso", "furiosa", "chateado", "chateada", "triste", "deprimido",
   "deprimida", "angustiado", "angustiada", "preocupado", "preocupada",
   "nervoso", "nervosa", "ansioso", "ansiosa", "medo", "assustado",
   "assustada", "decepcionado", "decepcionada", "chocado", "chocada"]

/-- Helper for `pySplit`: walks the character list keeping the (reversed)
current token; whitespace closes the token, empty tokens are dropped —
exactly the behavior of Python's argumentless `str.split()`. -/
def pySplitAux : List Char → List Char → List String
  | [], acc => if acc.isEmpty then [] else [String.mk acc.reverse]
  | c :: cs, acc =>
    if c.isWhitespace then
      if acc.isEmpty then pySplitAux cs []
      else String.mk acc.reverse :: pySplitAux cs []
    else pySplitAux cs (c :: acc)

/-- Python's `str.split()` with no separator: split on runs of whitespace,
discarding empty tokens. -/
def pySplit (s : String) : List String := pySplitAux s.data []

/-- Python's `str.lower()`, modelled with Lean's per-character case
folding (the lexicon itself is entirely lower-case). -/
def pyLower (s : String) : String := String.mk (s.data.map Char.toLower)

/-- `positive_count = sum(1 for word in words if word in self.positive_words)`
over `words = text.lower().split()`. -/
def positiveCount (s : String) : ℕ :=
  ((pySplit (pyLower s)).filter fun w => positiveWords.contains w).length

/-- `negative_count = sum(1 for word in words if word in self.negative_words)`. -/
def negativeCount (s : String) : ℕ :=
  ((pySplit (pyLower s)).filter fun w => negativeWords.contains w).length

/-- `SentimentAnalyzer.analyze_with_textblob`. The baseline estimator
(`TextBlob`) is the parameter `blob`, returning
(`blob.polarity`, `blob.subjectivity`). Returns the pair
(polarity, subjectivity). -/
def analyzeWithTextblob (blob : String → ℚ × ℚ) : Option String → ℚ × ℚ
  | none => (0, 0)                      -- pd.isna(text)
  | some s =>
    if s = "" then (0, 0)               -- `if not text`
    else
      let basePolarity := (blob s).1
      let polarity :=
        if positiveCount s > negativeCount s then min 1 (basePolarity + 3/10)
        else if negativeCount s > positiveCount s then max (-1) (basePolarity - 3/10)
        else basePolarity
      (polarity, (blob s).2)

/-- The four scores returned by VADER's `polarity_scores`. -/
structure VaderScores where
  compound : ℚ
  pos : ℚ
  neu : ℚ
  neg : ℚ
deriving DecidableEq, Repr

/-- The fixed fallback `{"compound": 0.0, "pos": 0.0, "neu": 1.0, "neg": 0.0}`. -/
def vaderFallback : VaderScores := ⟨0, 0, 1, 0⟩

/-- `SentimentAnalyzer.analyze_with_vader`. `va` is `self.vader_analyzer`:
`none` when the VADER lexicon failed to load (`VADER_AVAILABLE = False`),
otherwise the underlying `polarity_scores` function. -/
def analyzeWithVader (va : Option (String → VaderScores)) : Option String → VaderScores
  | none => vaderFallback               -- pd.isna(text)
  | some s =>
    if s = "" then vaderFallback        -- `if not text`
    else
      match va with
      | none => vaderFallback           -- `if self.vader_analyzer is None`
      | some f => f s                   -- scores returned unmodified

/-- The record built by `SentimentAnalyzer.analyze_text` (a Python dict
with these fixed keys). -/
structure SentimentResult where
  text : Option String
  sentiment_class : String
  polarity : ℚ
  subjectivity : ℚ
  vader_compound : ℚ
  vader_pos : ℚ
  vader_neu : ℚ
  vader_neg : ℚ
deriving DecidableEq, Repr

/-- `SentimentAnalyzer.analyze_text`: TextBlob analysis, VADER analysis,
then `sentiment_class = classify_sentiment(textblob_result["polarity"])`
with the default threshold. -/
def analyzeText (blob : String → ℚ × ℚ) (va : Option (String → VaderScores))
    (text : Option String) : SentimentResult :=
  let tb := analyzeWithTextblob blob text
  let vd := analyzeWithVader va text
  let sentimentClass := classifySentiment tb.1 defaultThreshold
  ⟨text, sentimentClass, tb.1, tb.2, vd.compound, vd.pos, vd.neu, vd.neg⟩

/-- The per-row loop of `SentimentAnalyzer.analyze_dataframe`:
`for text in df_analyzed[text_column]: sentiment_results.append(self.analyze_text(text))`
— one appended result per input text, in iteration order. -/
def analyzeDataframeRecords (blob : String → ℚ × ℚ)
    (va : Option (String → VaderScores))
    (texts : List (Option String)) : List SentimentResult :=
  texts.map (analyzeText blob va)

/-- The rational-valued fields of `pandas.Series.describe()` used by
`get_sentiment_summary` (count, mean, min, max; `std` and the quartiles are
irrational-valued interpolations no claim depends on). `describe` on an
empty column yields `NaN` entries, modelled as `none`. -/
structure DescStats where
  count : ℕ
  mean : ℚ
  minVal : ℚ
  maxVal : ℚ
deriving DecidableEq, Repr

/-- `series.describe()` restricted to its rational-valued components:
`none` on an empty column (pandas reports `NaN` statistics there). -/
def describeQ : List ℚ → Option DescStats
  | [] => none
  | x :: rest =>
    some ⟨(x :: rest).length, (x :: rest).sum / (x :: rest).length,
          rest.foldl min x, rest.foldl max x⟩

/-- `pandas.Series.idxmax`: position and value of the first occurrence of
the maximum of the series; `none` on an empty series. -/
def idxmaxL : List ℚ → Option (ℕ × ℚ)
  | [] => none
  | x :: xs =>
    match idxmaxL xs with
    | none => some (0, x)
    | some (j, m) => if m > x then some (j + 1, m) else some (0, x)

/-- `pandas.Series.idxmin`: position and value of the first occurrence of
the minimum of the series; `none` on an empty series. -/
def idxminL : List ℚ → Option (ℕ × ℚ)
  | [] => none
  | x :: xs =>
    match idxminL xs with
    | none => some (0, x)
    | some (j, m) => if m < x then some (j + 1, m) else some (0, x)

/-- The `df["sentiment_class"]` column of an analyzed collection. -/
def sentimentColumn (records : List SentimentResult) : List String :=
  records.map (·.sentiment_class)

/-- The dict returned by `SentimentAnalyzer.get_sentiment_summary`.
`sentiment_counts` / `sentiment_percentages` are `value_counts().to_dict()`
results: finite mappings, modelled as association lists over the distinct
classes that occur (pandas orders them by frequency; the claims treat them
as mappings, so theorems below are stated via membership, not order).
`most_positive_text` / `most_negative_text` are `None` (outer `none`) on an
empty collection; the inner `Option String` is the record's own possibly
missing text. -/
structure SentimentSummary where
  total_texts : ℕ
  sentiment_counts : List (String × ℕ)
  sentiment_percentages : List (String × ℚ)
  polarity_stats : Option DescStats
  subjectivity_stats : Option DescStats
  most_positive_text : Option (Option String)
  most_negative_text : Option (Option String)
deriving DecidableEq, Repr

/-- `df.loc[df["polarity"].idxmax(), "text"] if len(df) > 0 else None`. -/
def mostPositiveText (records : List SentimentResult) : Option (Option String) :=
  match idxmaxL (records.map (·.polarity)) with
  | none => none
  | some (i, _) => (records[i]?).map (·.text)

/-- `df.loc[df["polarity"].idxmin(), "text"] if len(df) > 0 else None`. -/
def mostNegativeText (records : List SentimentResult) : Option (Option String) :=
  match idxminL (records.map (·.polarity)) with
  | none => none
  | some (i, _) => (records[i]?).map (·.text)

/-- `SentimentAnalyzer.get_sentiment_summary` on a collection of analyzed
records (rows of an analyzed DataFrame, so the `sentiment_class` column the
source checks for is present by construction). -/
def getSentimentSummary (records : List SentimentResult) : SentimentSummary :=
  let col := sentimentColumn records
  let classes := col.dedup
  ⟨records.length,
   classes.map fun c => (c, col.count c),
   classes.map fun c => (c, 100 * (col.count c : ℚ) / records.length),
   describeQ (records.map (·.polarity)),
   describeQ (records.map (·.subjectivity)),
   mostPositiveText records,
   mostNegativeText records⟩

/-- A pandas cell: a string, a rational number, or `NaN`. -/
inductive Cell where
  | str : String → Cell
  | num : ℚ → Cell
  | na : Cell
deriving DecidableEq, Repr

/-- A pandas DataFrame value: named columns of cells. -/
structure PDataFrame where
  cols : List (String × List Cell)
deriving DecidableEq, Repr

/-- Column lookup, `df[c]`. -/
def getColumn (df : PDataFrame) (c : String) : List Cell :=
  match df.cols.find? fun p => p.1 == c with
  | some p => p.2
  | none => []

/-- A cell of a text column as the `Option String` the scorers receive
(`NaN` is missing; this pipeline's text column holds strings). -/
def cellToText : Cell → Option String
  | Cell.str s => some s
  | Cell.num _ => none
  | Cell.na => none

/-- The columns of `pd.DataFrame(sentiment_results).drop("text", axis=1)`:
the dict keys of `analyze_text` in insertion order, minus `text`. -/
def resultCols (rs : List SentimentResult) : List (String × List Cell) :=
  [("sentiment_class", rs.map fun r => Cell.str r.sentiment_class),
   ("polarity", rs.map fun r => Cell.num r.polarity),
   ("subjectivity", rs.map fun r => Cell.num r.subjectivity),
   ("vader_compound", rs.map fun r => Cell.num r.vader_compound),
   ("vader_pos", rs.map fun r => Cell.num r.vader_pos),
   ("vader_neu", rs.map fun r => Cell.num r.vader_neu),
   ("vader_neg", rs.map fun r => Cell.num r.vader_neg)]

/-- A heap of DataFrame objects: references are allocation indices. -/
def heapGet (h : List PDataFrame) (r : ℕ) : Option PDataFrame := h[r]?

/-- `SentimentAnalyzer.analyze_dataframe` as a program over a heap of
DataFrame objects, so that object identity is observable:
`df.copy()` allocates a fresh object with an equal value; the loop reads
the copy's text column; `pd.concat([...], axis=1)` allocates the result —
no step writes to the caller's object. Returns the heap after the call and
the reference to the returned DataFrame. -/
def analyzeDataframeHeap (blob : String → ℚ × ℚ)
    (va : Option (String → VaderScores)) (textColumn : String)
    (h : List PDataFrame) (r : ℕ) : List PDataFrame × ℕ :=
  match heapGet h r with
  | none => (h, r)
  | some df =>
      -- df_analyzed = df.copy(): fresh object at index h.length, value df
      let h1 := h ++ [df]
      -- sentiment_results, from df_analyzed[text_column] (the copy = df)
      let results := (getColumn df textColumn).map fun c =>
        analyzeText blob va (cellToText c)
      -- df_analyzed = pd.concat([df_analyzed, sentiment_df.drop("text", axis=1)], axis=1)
      let h2 := h1 ++ [⟨df.cols ++ resultCols results⟩]
      (h2, h1.length)

/-! ## Claims -/

/-- C1: for every polarity `p` and the default threshold `0.1`,
`classify_sentiment(p, 0.1)` returns `"positivo"` iff `p > 0.1`,
`"negativo"` iff `p < -0.1`, and `"neutro"` otherwise; in particular the
boundary values `p = 0.1` and `p = -0.1` both classify as `"neutro"`. -/
theorem classify_sentiment_default_spec (p : ℚ) :
    (classifySentiment p defaultThreshold = "positivo" ↔ p > 1/10) ∧
    (classifySentiment p defaultThreshold = "negativo" ↔ p < -(1/10)) ∧
    (classifySentiment p defaultThreshold = "neutro" ↔
      ¬ p > 1/10 ∧ ¬ p < -(1/10)) ∧
    classifySentiment (1/10) defaultThreshold = "neutro" ∧
    classifySentiment (-(1/10)) defaultThreshold = "neutro" := by
  have d1 : ("negativo" : String) ≠ "positivo" := by decide
  have d2 : ("neutro" : String) ≠ "positivo" := by decide
  have d3 : ("positivo" : String) ≠ "negativo" := by decide
  have d4 : ("neutro" : String) ≠ "negativo" := by decide
  have d5 : ("positivo" : String) ≠ "neutro" := by decide
  have d6 : ("negativo" : String) ≠ "neutro" := by decide
  have hb1 : classifySentiment (1/10) defaultThreshold = "neutro" := by
    unfold classifySentiment defaultThreshold
    rw [if_neg (by norm_num), if_neg (by norm_num)]
  have hb2 : classifySentiment (-(1/10)) defaultThreshold = "neutro" := by
    unfold classifySentiment defaultThreshold
    rw [if_neg (by norm_num), if_neg (by norm_num)]
  refine ⟨?_, ?_, ?_, hb1, hb2⟩ <;>
  · unfold classifySentiment defaultThreshold
    split_ifs with h1 h2 <;> simp_all [d1, d2, d3, d4, d5, d6] <;> linarith

/-- Witness for C1 at `p = 1/5`: the classifier returns `"positivo"`
there, obtained from the specification theorem. -/
theorem classify_sentiment_default_spec_witness :
    classifySentiment (1/5) defaultThreshold = "positivo" :=
  (classify_sentiment_default_spec (1/5)).1.mpr (by norm_num)

/-- C3: the `sentiment_class` field of `analyze_text` equals
`classify_sentiment` of the TextBlob polarity at the default threshold,
and is independent of the VADER analyzer (its availability and its
scores): two runs differing only in the VADER analyzer agree on
`sentiment_class`. -/
theorem sentiment_class_independent_of_vader (blob : String → ℚ × ℚ)
    (va va2 : Option (String → VaderScores)) (t : Option String) :
    (analyzeText blob va t).sentiment_class
      = classifySentiment (analyzeWithTextblob blob t).1 defaultThreshold ∧
    (analyzeText blob va t).sentiment_class
      = (analyzeText blob va2 t).sentiment_class :=
  ⟨rfl, rfl⟩

/-- C5: `analyze_with_vader` returns the fixed fallback
`{compound: 0, pos: 0, neu: 1, neg: 0}` whenever the text is missing or
empty or the VADER analyzer is unavailable, and otherwise returns the
underlying analyzer's scores unmodified. -/
theorem analyze_with_vader_spec (va : Option (String → VaderScores))
    (t : Option String) (f : String → VaderScores) (s : String) :
    (t = none → analyzeWithVader va t = vaderFallback) ∧
    analyzeWithVader va (some "") = vaderFallback ∧
    analyzeWithVader none t = vaderFallback ∧
    (va = some f → t = some s → s ≠ "" →
      analyzeWithVader va t = f s) := by
  refine ⟨?_, by simp [analyzeWithVader], ?_, ?_⟩
  · rintro rfl; rfl
  · cases t with
    | none => rfl
    | some s => simp only [analyzeWithVader]; split_ifs <;> rfl
  · rintro rfl rfl hs
    simp [analyzeWithVader, hs]

/-- Witness for C5: with an analyzer that returns compound `1/2` on the
text `"oi"`, the scores come through unmodified; and a missing text gives
the fallback. -/
theorem analyze_with_vader_spec_witness :
    analyzeWithVader (some fun _ => ⟨1/2, 1, 0, 0⟩) (some "oi") = ⟨1/2, 1, 0, 0⟩ ∧
    analyzeWithVader (some fun _ => ⟨1/2, 1, 0, 0⟩) none = vaderFallback :=
  ⟨(analyze_with_vader_spec (some fun _ => ⟨1/2, 1, 0, 0⟩) (some "oi")
      (fun _ => ⟨1/2, 1, 0, 0⟩) "oi").2.2.2 rfl rfl (by decide),
   (analyze_with_vader_spec (some fun _ => ⟨1/2, 1, 0, 0⟩) none
      (fun _ => ⟨1/2, 1, 0, 0⟩) "oi").1 rfl⟩

/-- C6: the batch loop of `analyze_dataframe` produces exactly one scored
record per input text, in the same order: the output has the length of
the input and its `i`-th entry is `analyze_text` of the `i`-th input. -/
theorem analyze_dataframe_records_spec (blob : String → ℚ × ℚ)
    (va : Option (String → VaderScores)) (texts : List (Option String)) :
    (analyzeDataframeRecords blob va texts).length = texts.length ∧
    ∀ i : ℕ, (analyzeDataframeRecords blob va texts)[i]?
      = (texts[i]?).map (analyzeText blob va) := by
  refine ⟨by simp [analyzeDataframeRecords], fun i => ?_⟩
  simp [analyzeDataframeRecords]

/-- C7: the summary of an empty record collection is total `0`, empty
count and percentage mappings, undefined (`NaN`, modelled `none`)
polarity and subjectivity statistics, and absent extremum texts; being a
total function, it raises nothing. -/
theorem get_sentiment_summary_empty :
    getSentimentSummary [] = ⟨0, [], [], none, none, none, none⟩ := rfl

/-- C2: for every non-empty text, `analyze_with_textblob` counts
lower-cased whitespace tokens in the two lexicons and returns polarity
`min(1, base + 0.3)` when positive hits strictly exceed negative hits,
`max(-1, base - 0.3)` when negative hits strictly exceed positive hits,
and the baseline polarity when the counts are equal; subjectivity is the
baseline's subjectivity unchanged. -/
theorem analyze_with_textblob_adjustment (blob : String → ℚ × ℚ)
    (s : String) (hs : s ≠ "") :
    (positiveCount s > negativeCount s →
      analyzeWithTextblob blob (some s)
        = (min 1 ((blob s).1 + 3/10), (blob s).2)) ∧
    (negativeCount s > positiveCount s →
      analyzeWithTextblob blob (some s)
        = (max (-1) ((blob s).1 - 3/10), (blob s).2)) ∧
    (positiveCount s = negativeCount s →
      analyzeWithTextblob blob (some s) = ((blob s).1, (blob s).2)) := by
  refine ⟨fun h => ?_, fun h => ?_, fun h => ?_⟩
  · simp [analyzeWithTextblob, hs, h]
  · have h1 : ¬ positiveCount s > negativeCount s := by omega
    simp [analyzeWithTextblob, hs, h, h1]
  · have h1 : ¬ positiveCount s > negativeCount s := by omega
    have h2 : ¬ negativeCount s > positiveCount s := by omega
    simp [analyzeWithTextblob, hs, h1, h2]

/-- Witness for C2: `"bom"` has one positive hit and no negative hit, and
with a baseline returning `(0, 1/2)` the scorer yields `(3/10, 1/2)`. -/
theorem analyze_with_textblob_adjustment_witness :
    positiveCount "bom" > negativeCount "bom" ∧
    analyzeWithTextblob (fun _ => ((0 : ℚ), (1 : ℚ)/2)) (some "bom")
      = (3/10, 1/2) := by
  refine ⟨by decide, ?_⟩
  have h := (analyze_with_textblob_adjustment
    (fun _ => ((0 : ℚ), (1 : ℚ)/2)) "bom" (by decide)).1 (by decide)
  rw [h]
  norm_num

/-- C4: assuming the baseline estimator stays in range (polarity in
`[-1, 1]`, subjectivity in `[0, 1]`), `analyze_with_textblob` returns
polarity in `[-1, 1]` and subjectivity in `[0, 1]`; a missing or empty
text yields exactly `(0, 0)` (a total function: nothing is raised). -/
theorem analyze_with_textblob_range (blob : String → ℚ × ℚ)
    (t : Option String)
    (hb : ∀ s : String,
      -1 ≤ (blob s).1 ∧ (blob s).1 ≤ 1 ∧ 0 ≤ (blob s).2 ∧ (blob s).2 ≤ 1) :
    (-1 ≤ (analyzeWithTextblob blob t).1 ∧ (analyzeWithTextblob blob t).1 ≤ 1 ∧
      0 ≤ (analyzeWithTextblob blob t).2 ∧ (analyzeWithTextblob blob t).2 ≤ 1) ∧
    analyzeWithTextblob blob none = (0, 0) ∧
    analyzeWithTextblob blob (some "") = (0, 0) := by
  refine ⟨?_, rfl, by simp [analyzeWithTextblob]⟩
  cases t with
  | none => norm_num [analyzeWithTextblob]
  | some s =>
    by_cases hs : s = ""
    · subst hs; norm_num [analyzeWithTextblob]
    · obtain ⟨hb1, hb2, hb3, hb4⟩ := hb s
      simp only [analyzeWithTextblob, if_neg hs]
      split_ifs with h1 h2
      · exact ⟨le_min (by norm_num) (by linarith), min_le_left _ _, hb3, hb4⟩
      · exact ⟨le_max_left _ _, max_le (by norm_num) (by linarith), hb3, hb4⟩
      · exact ⟨hb1, hb2, hb3, hb4⟩

/-- Witness for C4: the in-range baseline `fun _ => (0, 0)` on the text
`"bom"`, with the range conclusion and the exact empty/missing cases. -/
theorem analyze_with_textblob_range_witness :
    (-1 ≤ (analyzeWithTextblob (fun _ => ((0 : ℚ), (0 : ℚ))) (some "bom")).1 ∧
      (analyzeWithTextblob (fun _ => ((0 : ℚ), (0 : ℚ))) (some "bom")).1 ≤ 1 ∧
      0 ≤ (analyzeWithTextblob (fun _ => ((0 : ℚ), (0 : ℚ))) (some "bom")).2 ∧
      (analyzeWithTextblob (fun _ => ((0 : ℚ), (0 : ℚ))) (some "bom")).2 ≤ 1) ∧
    analyzeWithTextblob (fun _ => ((0 : ℚ), (0 : ℚ))) none = (0, 0) ∧
    analyzeWithTextblob (fun _ => ((0 : ℚ), (0 : ℚ))) (some "") = (0, 0) :=
  analyze_with_textblob_range (fun _ => ((0 : ℚ), (0 : ℚ))) (some "bom")
    (fun _ => by norm_num)

/-- Distributing `100 * _ / d` over a list sum of casted naturals. -/
theorem sum_map_hundred_div (l : List String) (f : String → ℕ) (d : ℚ) :
    (l.map fun a => 100 * (f a : ℚ) / d).sum = 100 * ((l.map f).sum : ℚ) / d := by
  induction l with
  | nil => simp
  | cons x xs ih =>
    simp only [List.map_cons, List.sum_cons, ih]
    push_cast
    ring

/-- C8: for a non-empty record collection the summary's counts mapping is
the exact tally of records per sentiment class, each present class's
percentage is `100 * count / total`, classes that never occur are absent
from both mappings, and the percentages of the present classes sum to
exactly `100`. -/
theorem get_sentiment_summary_counts_spec (records : List SentimentResult)
    (h : records ≠ []) :
    (∀ c : String, (sentimentColumn records).count c
        = (records.filter fun r => r.sentiment_class == c).length) ∧
    (∀ (c : String) (n : ℕ),
      (c, n) ∈ (getSentimentSummary records).sentiment_counts ↔
        0 < (sentimentColumn records).count c ∧
          n = (sentimentColumn records).count c) ∧
    (∀ (c : String) (q : ℚ),
      (c, q) ∈ (getSentimentSummary records).sentiment_percentages ↔
        0 < (sentimentColumn records).count c ∧
          q = 100 * ((sentimentColumn records).count c : ℚ) / records.length) ∧
    ((getSentimentSummary records).sentiment_percentages.map Prod.snd).sum
      = 100 := by
  have hl : 0 < records.length := List.length_pos.mpr h
  refine ⟨?_, ?_, ?_, ?_⟩
  · intro c
    simp only [sentimentColumn, List.count, List.countP_eq_length_filter,
      List.filter_map, List.length_map]
    rfl
  · intro c n
    simp only [getSentimentSummary, List.mem_map, Prod.mk.injEq]
    constructor
    · rintro ⟨a, ha, rfl, rfl⟩
      exact ⟨List.count_pos_iff.mpr (List.mem_dedup.mp ha), rfl⟩
    · rintro ⟨hpos, rfl⟩
      exact ⟨c, List.mem_dedup.mpr (List.count_pos_iff.mp hpos), rfl, rfl⟩
  · intro c q
    simp only [getSentimentSummary, List.mem_map, Prod.mk.injEq]
    constructor
    · rintro ⟨a, ha, rfl, rfl⟩
      exact ⟨List.count_pos_iff.mpr (List.mem_dedup.mp ha), rfl⟩
    · rintro ⟨hpos, rfl⟩
      exact ⟨c, List.mem_dedup.mpr (List.count_pos_iff.mp hpos), rfl, rfl⟩
  · simp only [getSentimentSummary, List.map_map]
    have hc : (Prod.snd ∘ fun c : String =>
        (c, 100 * ((sentimentColumn records).count c : ℚ) / records.length))
        = fun c : String =>
          100 * ((sentimentColumn records).count c : ℚ) / records.length := rfl
    rw [hc, sum_map_hundred_div, List.sum_map_count_dedup_eq_length]
    have hlen : (sentimentColumn records).length = records.length := by
      simp [sentimentColumn]
    rw [hlen, mul_div_assoc,
      div_self (Nat.cast_ne_zero.mpr (Nat.pos_iff_ne_zero.mp hl)), mul_one]

/-- Witness for C8 on the one-record collection classified `"positivo"`:
its percentages sum to `100` and the counts mapping contains exactly the
tally `("positivo", 1)`. -/
theorem get_sentiment_summary_counts_spec_witness :
    ((getSentimentSummary [⟨some "oi", "positivo", 1/2, 0, 0, 0, 0, 0⟩]
      ).sentiment_percentages.map Prod.snd).sum = 100 ∧
    (("positivo", 1) ∈ (getSentimentSummary
      [⟨some "oi", "positivo", 1/2, 0, 0, 0, 0, 0⟩]).sentiment_counts ↔
        0 < (sentimentColumn
          [⟨some "oi", "positivo", 1/2, 0, 0, 0, 0, 0⟩]).count "positivo" ∧
          1 = (sentimentColumn
            [⟨some "oi", "positivo", 1/2, 0, 0, 0, 0, 0⟩]).count "positivo") :=
  ⟨(get_sentiment_summary_counts_spec _ (List.cons_ne_nil _ _)).2.2.2,
   (get_sentiment_summary_counts_spec _ (List.cons_ne_nil _ _)).2.1 "positivo" 1⟩

/-- `idxmax` is undefined exactly on the empty series. -/
theorem idxmaxL_eq_none_iff (xs : List ℚ) : idxmaxL xs = none ↔ xs = [] := by
  cases xs with
  | nil => simp [idxmaxL]
  | cons x xs =>
    rw [idxmaxL]
    constructor
    · intro h
      split at h
      · simp at h
      · split at h <;> simp at h
    · intro h
      simp at h

/-- `idxmin` is undefined exactly on the empty series. -/
theorem idxminL_eq_none_iff (xs : List ℚ) : idxminL xs = none ↔ xs = [] := by
  cases xs with
  | nil => simp [idxminL]
  | cons x xs =>
    rw [idxminL]
    constructor
    · intro h
      split at h
      · simp at h
      · split at h <;> simp at h
    · intro h
      simp at h

/-- `idxmaxL` returns the value and position of the first occurrence of
the maximum: the entry there equals the value, every entry is at most the
value, and every earlier entry is strictly below it. -/
theorem idxmaxL_spec (xs : List ℚ) (i : ℕ) (m : ℚ)
    (h : idxmaxL xs = some (i, m)) :
    ∃ hi : i < xs.length,
      xs.get ⟨i, hi⟩ = m ∧
      (∀ j (hj : j < xs.length), xs.get ⟨j, hj⟩ ≤ m) ∧
      (∀ j (hj : j < i), xs.get ⟨j, Nat.lt_trans hj hi⟩ < m) := by
  induction xs generalizing i m with
  | nil => simp [idxmaxL] at h
  | cons x xs ih =>
    rw [idxmaxL] at h
    split at h
    next hx =>
      obtain ⟨rfl, rfl⟩ : 0 = i ∧ x = m := by simpa using h
      have hxs : xs = [] := (idxmaxL_eq_none_iff xs).mp hx
      subst hxs
      refine ⟨Nat.zero_lt_one, rfl, ?_, fun j hj => absurd hj (Nat.not_lt_zero j)⟩
      intro j hj
      have hj0 : j = 0 := Nat.lt_one_iff.mp (by simpa using hj)
      subst hj0
      exact le_refl _
    next j mj hx =>
      obtain ⟨hjl, hget, hall, hfirst⟩ := ih j mj hx
      split at h
      next hc =>
        obtain ⟨rfl, rfl⟩ : j + 1 = i ∧ mj = m := by simpa using h
        refine ⟨Nat.succ_lt_succ hjl, hget, ?_, ?_⟩
        · intro k hk
          cases k with
          | zero => exact le_of_lt hc
          | succ k => exact hall k (Nat.lt_of_succ_lt_succ hk)
        · intro k hk
          cases k with
          | zero => exact hc
          | succ k => exact hfirst k (Nat.lt_of_succ_lt_succ hk)
      next hc =>
        obtain ⟨rfl, rfl⟩ : 0 = i ∧ x = m := by simpa using h
        push_neg at hc
        refine ⟨Nat.succ_pos _, rfl, ?_, fun j hj => absurd hj (Nat.not_lt_zero j)⟩
        intro k hk
        cases k with
        | zero => exact le_refl _
        | succ k => exact le_trans (hall k (Nat.lt_of_succ_lt_succ hk)) hc

/-- `idxminL` returns the value and position of the first occurrence of
the minimum, symmetrically to `idxmaxL`. -/
theorem idxminL_spec (xs : List ℚ) (i : ℕ) (m : ℚ)
    (h : idxminL xs = some (i, m)) :
    ∃ hi : i < xs.length,
      xs.get ⟨i, hi⟩ = m ∧
      (∀ j (hj : j < xs.length), m ≤ xs.get ⟨j, hj⟩) ∧
      (∀ j (hj : j < i), m < xs.get ⟨j, Nat.lt_trans hj hi⟩) := by
  induction xs generalizing i m with
  | nil => simp [idxminL] at h
  | cons x xs ih =>
    rw [idxminL] at h
    split at h
    next hx =>
      obtain ⟨rfl, rfl⟩ : 0 = i ∧ x = m := by simpa using h
      have hxs : xs = [] := (idxminL_eq_none_iff xs).mp hx
      subst hxs
      refine ⟨Nat.zero_lt_one, rfl, ?_, fun j hj => absurd hj (Nat.not_lt_zero j)⟩
      intro j hj
      have hj0 : j = 0 := Nat.lt_one_iff.mp (by simpa using hj)
      subst hj0
      exact le_refl _
    next j mj hx =>
      obtain ⟨hjl, hget, hall, hfirst⟩ := ih j mj hx
      split at h
      next hc =>
        obtain ⟨rfl, rfl⟩ : j + 1 = i ∧ mj = m := by simpa using h
        refine ⟨Nat.succ_lt_succ hjl, hget, ?_, ?_⟩
        · intro k hk
          cases k with
          | zero => exact le_of_lt hc
          | succ k => exact hall k (Nat.lt_of_succ_lt_succ hk)
        · intro k hk
          cases k with
          | zero => exact hc
          | succ k => exact hfirst k (Nat.lt_of_succ_lt_succ hk)
      next hc =>
        obtain ⟨rfl, rfl⟩ : 0 = i ∧ x = m := by simpa using h
        push_neg at hc
        refine ⟨Nat.succ_pos _, rfl, ?_, fun j hj => absurd hj (Nat.not_lt_zero j)⟩
        intro k hk
        cases k with
        | zero => exact le_refl _
        | succ k => exact le_trans hc (hall k (Nat.lt_of_succ_lt_succ hk))

/-- C9: on a non-empty collection, `most_positive_text` is the text of
the record with maximal polarity and `most_negative_text` the text of the
record with minimal polarity, the first such record in input order in
case of ties. -/
theorem get_sentiment_summary_extrema_spec (records : List SentimentResult)
    (h : records ≠ []) :
    (∃ i, ∃ hi : i < records.length,
      (getSentimentSummary records).most_positive_text
          = some (records.get ⟨i, hi⟩).text ∧
      (∀ j (hj : j < records.length),
        (records.get ⟨j, hj⟩).polarity ≤ (records.get ⟨i, hi⟩).polarity) ∧
      (∀ j (hj : j < i),
        (records.get ⟨j, Nat.lt_trans hj hi⟩).polarity
          < (records.get ⟨i, hi⟩).polarity)) ∧
    (∃ i, ∃ hi : i < records.length,
      (getSentimentSummary records).most_negative_text
          = some (records.get ⟨i, hi⟩).text ∧
      (∀ j (hj : j < records.length),
        (records.get ⟨i, hi⟩).polarity ≤ (records.get ⟨j, hj⟩).polarity) ∧
      (∀ j (hj : j < i),
        (records.get ⟨i, hi⟩).polarity
          < (records.get ⟨j, Nat.lt_trans hj hi⟩).polarity)) := by
  have hps : records.map (·.polarity) ≠ [] := by simpa using h
  have hmapget : ∀ (j : ℕ) (hj : j < records.length),
      (records.map (·.polarity)).get ⟨j, by simpa using hj⟩
        = (records.get ⟨j, hj⟩).polarity := by
    intro j hj
    simp [List.get_eq_getElem]
  constructor
  · obtain ⟨⟨i, m⟩, hmax⟩ :
        ∃ p, idxmaxL (records.map (·.polarity)) = some p := by
      cases hm : idxmaxL (records.map (·.polarity)) with
      | none => exact absurd ((idxmaxL_eq_none_iff _).mp hm) hps
      | some p => exact ⟨p, rfl⟩
    obtain ⟨hi, hget, hall, hfirst⟩ := idxmaxL_spec _ i m hmax
    have hi2 : i < records.length := by simpa using hi
    have hm2 : (records.get ⟨i, hi2⟩).polarity = m := by
      rw [← hmapget i hi2]
      exact hget
    refine ⟨i, hi2, ?_, ?_, ?_⟩
    · have hfield : (getSentimentSummary records).most_positive_text
          = mostPositiveText records := rfl
      rw [hfield]
      simp only [mostPositiveText, hmax]
      rw [List.getElem?_eq_getElem hi2]
      simp [List.get_eq_getElem]
    · intro j hj
      have hle := hall j (by simpa using hj)
      rw [hmapget j hj] at hle
      rw [hm2]
      exact hle
    · intro j hj
      have hlt := hfirst j hj
      rw [hmapget j (Nat.lt_trans hj hi2)] at hlt
      rw [hm2]
      exact hlt
  · obtain ⟨⟨i, m⟩, hmin⟩ :
        ∃ p, idxminL (records.map (·.polarity)) = some p := by
      cases hm : idxminL (records.map (·.polarity)) with
      | none => exact absurd ((idxminL_eq_none_iff _).mp hm) hps
      | some p => exact ⟨p, rfl⟩
    obtain ⟨hi, hget, hall, hfirst⟩ := idxminL_spec _ i m hmin
    have hi2 : i < records.length := by simpa using hi
    have hm2 : (records.get ⟨i, hi2⟩).polarity = m := by
      rw [← hmapget i hi2]
      exact hget
    refine ⟨i, hi2, ?_, ?_, ?_⟩
    · have hfield : (getSentimentSummary records).most_negative_text
          = mostNegativeText records := rfl
      rw [hfield]
      simp only [mostNegativeText, hmin]
      rw [List.getElem?_eq_getElem hi2]
      simp [List.get_eq_getElem]
    · intro j hj
      have hle := hall j (by simpa using hj)
      rw [hmapget j hj] at hle
      rw [hm2]
      exact hle
    · intro j hj
      have hlt := hfirst j hj
      rw [hmapget j (Nat.lt_trans hj hi2)] at hlt
      rw [hm2]
      exact hlt

/-- A concrete three-record collection for the extremum witness: the
maximal polarity `1` is shared by the records at positions 1 and 2. -/
def extremaWitnessRecords : List SentimentResult :=
  [⟨some "a", "neutro", 0, 0, 0, 0, 0, 0⟩,
   ⟨some "b", "positivo", 1, 0, 0, 0, 0, 0⟩,
   ⟨some "c", "positivo", 1, 0, 0, 0, 0, 0⟩]

/-- Witness for C9 on `extremaWitnessRecords`, obtained by applying the
extremum theorem to that non-empty collection. -/
theorem get_sentiment_summary_extrema_spec_witness :
    (∃ i, ∃ hi : i < extremaWitnessRecords.length,
      (getSentimentSummary extremaWitnessRecords).most_positive_text
          = some (extremaWitnessRecords.get ⟨i, hi⟩).text ∧
      (∀ j (hj : j < extremaWitnessRecords.length),
        (extremaWitnessRecords.get ⟨j, hj⟩).polarity
          ≤ (extremaWitnessRecords.get ⟨i, hi⟩).polarity) ∧
      (∀ j (hj : j < i),
        (extremaWitnessRecords.get ⟨j, Nat.lt_trans hj hi⟩).polarity
          < (extremaWitnessRecords.get ⟨i, hi⟩).polarity)) ∧
    (∃ i, ∃ hi : i < extremaWitnessRecords.length,
      (getSentimentSummary extremaWitnessRecords).most_negative_text
          = some (extremaWitnessRecords.get ⟨i, hi⟩).text ∧
      (∀ j (hj : j < extremaWitnessRecords.length),
        (extremaWitnessRecords.get ⟨i, hi⟩).polarity
          ≤ (extremaWitnessRecords.get ⟨j, hj⟩).polarity) ∧
      (∀ j (hj : j < i),
        (extremaWitnessRecords.get ⟨i, hi⟩).polarity
          < (extremaWitnessRecords.get ⟨j, Nat.lt_trans hj hi⟩).polarity)) :=
  get_sentiment_summary_extrema_spec extremaWitnessRecords
    (List.cons_ne_nil _ _)

/-- C10: `analyze_dataframe` never writes to the caller's DataFrame: it
copies the input and concatenates onto the copy. After the call the
caller's reference still holds exactly the value it held before, the
returned reference is a different object, and that object's value is the
original columns followed by the new sentiment columns. -/
theorem analyze_dataframe_preserves_input (blob : String → ℚ × ℚ)
    (va : Option (String → VaderScores)) (textColumn : String)
    (h : List PDataFrame) (r : ℕ) (df : PDataFrame)
    (hr : heapGet h r = some df) :
    heapGet (analyzeDataframeHeap blob va textColumn h r).1 r = some df ∧
    (analyzeDataframeHeap blob va textColumn h r).2 ≠ r ∧
    heapGet (analyzeDataframeHeap blob va textColumn h r).1
        (analyzeDataframeHeap blob va textColumn h r).2
      = some ⟨df.cols ++ resultCols ((getColumn df textColumn).map fun c =>
          analyzeText blob va (cellToText c))⟩ := by
  have hlt : r < h.length := (List.getElem?_eq_some_iff.mp hr).1
  simp only [analyzeDataframeHeap, hr]
  refine ⟨?_, ?_, ?_⟩
  · show heapGet ((h ++ [df]) ++ [_]) r = some df
    unfold heapGet
    rw [List.getElem?_append_left (by simp; omega),
      List.getElem?_append_left hlt]
    exact hr
  · show (h ++ [df]).length ≠ r
    simp
    omega
  · show heapGet ((h ++ [df]) ++ [_]) (h ++ [df]).length = some _
    unfold heapGet
    exact List.getElem?_concat_length _ _

/-- Witness for C10: a one-object heap holding a single-column DataFrame;
after the call the input object is untouched, the result is a new object
carrying the original column plus the seven sentiment columns. -/
theorem analyze_dataframe_preserves_input_witness :
    heapGet (analyzeDataframeHeap (fun _ => ((0 : ℚ), (0 : ℚ))) none
        "processed_text" [⟨[("processed_text", [Cell.str "bom"])]⟩] 0).1 0
      = some ⟨[("processed_text", [Cell.str "bom"])]⟩ ∧
    (analyzeDataframeHeap (fun _ => ((0 : ℚ), (0 : ℚ))) none
        "processed_text" [⟨[("processed_text", [Cell.str "bom"])]⟩] 0).2 ≠ 0 ∧
    heapGet (analyzeDataframeHeap (fun _ => ((0 : ℚ), (0 : ℚ))) none
          "processed_text" [⟨[("processed_text", [Cell.str "bom"])]⟩] 0).1
        (analyzeDataframeHeap (fun _ => ((0 : ℚ), (0 : ℚ))) none
          "processed_text" [⟨[("processed_text", [Cell.str "bom"])]⟩] 0).2
      = some ⟨[("processed_text", [Cell.str "bom"])] ++
          resultCols ((getColumn ⟨[("processed_text", [Cell.str "bom"])]⟩
              "processed_text").map fun c =>
            analyzeText (fun _ => ((0 : ℚ), (0 : ℚ))) none (cellToText c))⟩ :=
  analyze_dataframe_preserves_input (fun _ => ((0 : ℚ), (0 : ℚ))) none
    "processed_text" [⟨[("processed_text", [Cell.str "bom"])]⟩] 0
    ⟨[("processed_text", [Cell.str "bom"])]⟩ rfl
